import Mathlib

/-!
Verification of the voice-command pipeline of the CRMBLR demo CRM web app.

The development shallowly embeds, from the TypeScript source:
  - the JavaScript string operations the code relies on (`toLowerCase`,
    `trim`, `includes`, `startsWith`, `split(' ')`, `toLocaleString`);
  - the command classifier inside `processVoiceCommand` (ordered
    keyword-matching chain producing an intent);
  - the dispatcher guards of `processVoiceCommand` (busy flags, duplicate
    suppression, word-count validation, 3-second cooldown) as a transition
    on an explicit session state;
  - the session-controller disconnect paths (`RoomEvent.Disconnected`
    handler and `disconnectFromRoom`);
  - the `/mood` endpoint's short-circuit logic;
  - the cascading text-to-speech strategy (`speakWithOpenAI` with
    `fallbackSpeak`), modelled as an event trace over the possible
    single outcomes of the fetch and of audio playback;
  - the speech-capture final-transcript filters (`recognition.onresult`).

Machine floats appear only in the capture confidence check; the result of
that comparison is abstracted as a Boolean parameter, and no theorem below
depends on its value.
-/

namespace CrmblrVoice

/-! ## JavaScript string primitives (ASCII fragment, as the code uses them) -/

/-- ASCII lowercasing of one character, as `String.prototype.toLowerCase`
acts on the ASCII inputs this pipeline handles. -/
def lcChar (c : Char) : Char :=
  if 65 ≤ c.toNat ∧ c.toNat ≤ 90 then Char.ofNat (c.toNat + 32) else c

/-- JS `s.toLowerCase()` on ASCII strings. -/
def lowerStr (s : String) : String := ⟨s.data.map lcChar⟩

/-- The whitespace characters JS `trim` removes that occur in this app's data. -/
def isWsChar (c : Char) : Bool := c == ' ' || c == '\t' || c == '\n' || c == '\r'

/-- JS `s.trim()`. -/
def trimS (s : String) : String :=
  ⟨((s.data.dropWhile isWsChar).reverse.dropWhile isWsChar).reverse⟩

/-- Whether `needle` begins `hay` (character lists). -/
def leadsWith : List Char → List Char → Bool
  | [], _ => true
  | _ :: _, [] => false
  | a :: as, b :: bs => a == b && leadsWith as bs

/-- Whether `needle` occurs contiguously inside `hay` (character lists). -/
def occursIn (needle : List Char) : List Char → Bool
  | [] => needle.isEmpty
  | h :: t => leadsWith needle (h :: t) || occursIn needle t

/-- JS `s.includes(pat)`. -/
def jsIncludes (s pat : String) : Bool := occursIn pat.data s.data

/-- JS `s.startsWith(pre)`. -/
def jsStartsWith (s pre : String) : Bool := leadsWith pre.data s.data

/-- JS `s.split(' ')`: pieces between single space characters, empty pieces
kept, as the dispatcher's word-count validation uses it. -/
def splitSp : List Char → List (List Char)
  | [] => [[]]
  | c :: t =>
    if c == ' ' then [] :: splitSp t
    else
      match splitSp t with
      | [] => [[c]]
      | w :: ws => (c :: w) :: ws

/-- Comma grouping of a reversed digit list, three digits at a time. -/
def groupDigits : List Char → List Char
  | a :: b :: c :: d :: rest => a :: b :: c :: ',' :: groupDigits (d :: rest)
  | l => l

/-- JS `n.toLocaleString()` for a nonnegative integer in the default
`en-US`-style grouping the app displays (`15000 ↦ "15,000"`). -/
def toLocaleStringNat (n : Nat) : String :=
  ⟨(groupDigits (Nat.repr n).data.reverse).reverse⟩

/-! ## Data model: intents and the cached biggest-donation fact -/

/-- The remote-query kinds the dispatcher proxies to the server
(`/api/openai/weather`, `/api/openai/donation-advice`,
`/api/openai/general-question`). -/
inductive RemoteKind where
  | weather
  | donationAdvice
  | generalQuestion
  deriving DecidableEq

/-- The intent `processVoiceCommand` derives from an utterance: stop the
speech output, navigate (speaking `responseText`, then routing to `target`),
answer locally with a canned or cached reply, or issue a remote query with
the utterance as payload. -/
inductive Intent where
  | stopSpeaking
  | navigate (responseText target : String)
  | inlineReply (responseText : String)
  | remoteQuery (kind : RemoteKind) (query : String)
  deriving DecidableEq

/-- The globally cached biggest-donation fact `window.biggestDonationInfo`
set by the donations page (`{donor, amount, date}`). -/
structure DonationInfo where
  donor : String
  amount : Nat
  date : String
  deriving DecidableEq

/-! ## Command classifier (`processVoiceCommand`, keyword chain)

Each guard is the condition of one branch of the `if`/`else if` chain,
applied to `lowerCommand = command.toLowerCase()`. -/

def stopGuard (lc : String) : Bool :=
  jsIncludes lc "stop" || jsIncludes lc "stop talking" ||
  jsIncludes lc "shut up" || jsIncludes lc "be quiet"

def pipelineGuard (lc : String) : Bool :=
  jsIncludes lc "sales" || jsIncludes lc "funnel" || jsIncludes lc "pipeline"

def donationsGuard (lc : String) : Bool :=
  jsIncludes lc "donations" || jsIncludes lc "quarter" || jsIncludes lc "revenue"

def biggestDonorGuard (lc : String) : Bool :=
  jsIncludes lc "biggest donation" || jsIncludes lc "biggest donor" ||
  jsIncludes lc "top donor" || jsIncludes lc "largest donation" ||
  jsIncludes lc "biggest donor this quarter" || jsIncludes lc "who is the biggest donor"

def contactsGuard (lc : String) : Bool :=
  jsIncludes lc "contacts" || jsIncludes lc "people" || jsIncludes lc "customers"

def calendarGuard (lc : String) : Bool :=
  jsIncludes lc "calendar" || jsIncludes lc "meeting" || jsIncludes lc "schedule"

def reportsGuard (lc : String) : Bool :=
  jsIncludes lc "reports" || jsIncludes lc "analytics" || jsIncludes lc "data"

def findJonathanGuard (lc : String) : Bool :=
  jsIncludes lc "find" && jsIncludes lc "jonathan"

def findTakuaGuard (lc : String) : Bool :=
  jsIncludes lc "find" && jsIncludes lc "takua"

def findHongGuard (lc : String) : Bool :=
  jsIncludes lc "find" && jsIncludes lc "hong"

def findDatzGuard (lc : String) : Bool :=
  jsIncludes lc "find" && jsIncludes lc "datz"

def weatherGuard (lc : String) : Bool :=
  jsIncludes lc "weather" || jsIncludes lc "temperature" || jsIncludes lc "climate" ||
  jsIncludes lc "what's the weather" || jsIncludes lc "how's the weather" ||
  jsIncludes lc "weather like" || jsIncludes lc "weather in tokyo" ||
  jsIncludes lc "tokyo weather" || jsIncludes lc "rain" || jsIncludes lc "sunny" ||
  jsIncludes lc "cloudy" || jsIncludes lc "forecast"

def donationAdviceGuard (lc : String) : Bool :=
  jsIncludes lc "donation advice" || jsIncludes lc "how to get donations" ||
  jsIncludes lc "donation strategy" || jsIncludes lc "increase donations" ||
  jsIncludes lc "get donations up" || jsIncludes lc "donation tips" ||
  jsIncludes lc "fundraising advice"

def questionGuard (lc : String) : Bool :=
  jsStartsWith lc "question" || jsStartsWith lc "ask" || jsStartsWith lc "what is" ||
  jsStartsWith lc "how does" || jsStartsWith lc "explain" || jsStartsWith lc "tell me about"

def helpGuard (lc : String) : Bool :=
  jsIncludes lc "help" || jsIncludes lc "what can you do"

/-- The reply of the (cache-present, utterance-mentions-quarter) sub-branch of
the biggest-donor branch. The donor name `Alex Inc` is hardcoded in the
source; only amount and date come from the cache. -/
def quarterBiggestReply (info : DonationInfo) : String :=
  "Alex Inc is the biggest donor this quarter with $" ++
    toLocaleStringNat info.amount ++ " donated on " ++ info.date ++ "!"

/-- The reply of the (cache-present, no mention of quarter) sub-branch of the
biggest-donor branch. -/
def generalBiggestReply (info : DonationInfo) : String :=
  "The biggest donor is " ++ info.donor ++ " with $" ++
    toLocaleStringNat info.amount ++ " donated on " ++ info.date ++ "!"

/-- The canned help reply. -/
def helpReply : String :=
  "I can help you navigate to sales pipeline, donations, contacts, calendar, reports, find specific people like Jonathan, Takua, Hong, or Datz, tell you about the biggest donor this quarter, check the weather in Tokyo, get donation advice, answer any general question, or say 'stop' to stop me talking! Just say what you need!"

/-- The canned clarification reply of the default branch. -/
def defaultReply : String :=
  "I didn't quite catch that. Try saying 'sales pipeline', 'donations', 'contacts', 'find Jonathan', or ask a question starting with 'QUESTION'."

/-- The ordered keyword-matching chain of `processVoiceCommand`: first
matching branch wins. `tenantId` fills the navigation targets; `cache` is
`window.biggestDonationInfo` (absent when the donations page has not set
it). -/
def classifyCommand (tenantId : String) (cache : Option DonationInfo)
    (command : String) : Intent :=
  let lc := lowerStr command
  if stopGuard lc then .stopSpeaking
  else if pipelineGuard lc then
    .navigate "Let me show you the sales pipeline!" ("/t/" ++ tenantId ++ "/pipeline")
  else if donationsGuard lc then
    .navigate "Perfect! Opening donations for this quarter!" ("/t/" ++ tenantId ++ "/donations")
  else if biggestDonorGuard lc then
    match cache with
    | some info =>
      if jsIncludes lc "quarter" then .inlineReply (quarterBiggestReply info)
      else .inlineReply (generalBiggestReply info)
    | none =>
      .navigate "Perfect! Let me show you the donations page to find the biggest donor this quarter!"
        ("/t/" ++ tenantId ++ "/donations")
  else if contactsGuard lc then
    .navigate "Opening your contacts!" ("/t/" ++ tenantId ++ "/contacts")
  else if calendarGuard lc then
    .navigate "Let's check your calendar!" ("/t/" ++ tenantId ++ "/calendar")
  else if reportsGuard lc then
    .navigate "Perfect! Generating your reports!" ("/t/" ++ tenantId ++ "/reports")
  else if findJonathanGuard lc then
    .navigate "Perfect! Let me find Jonathan for you!" ("/t/" ++ tenantId ++ "/contacts?search=Jonathan")
  else if findTakuaGuard lc then
    .navigate "Finding Takua for you!" ("/t/" ++ tenantId ++ "/contacts?search=Takua")
  else if findHongGuard lc then
    .navigate "Perfect! Let me find Hong for you!" ("/t/" ++ tenantId ++ "/contacts?search=Hong")
  else if findDatzGuard lc then
    .navigate "Finding Datz for you!" ("/t/" ++ tenantId ++ "/contacts?search=Datz")
  else if weatherGuard lc then .remoteQuery .weather command
  else if donationAdviceGuard lc then .remoteQuery .donationAdvice command
  else if questionGuard lc then .remoteQuery .generalQuestion command
  else if helpGuard lc then .inlineReply helpReply
  else .inlineReply defaultReply

/-- The classifier's branches as an explicit ordered list of
(guard value, outcome) pairs, in source order. -/
def codeBranches (tenantId : String) (cache : Option DonationInfo)
    (command : String) : List (Bool × Intent) :=
  let lc := lowerStr command
  [ (stopGuard lc, .stopSpeaking),
    (pipelineGuard lc,
      .navigate "Let me show you the sales pipeline!" ("/t/" ++ tenantId ++ "/pipeline")),
    (donationsGuard lc,
      .navigate "Perfect! Opening donations for this quarter!" ("/t/" ++ tenantId ++ "/donations")),
    (biggestDonorGuard lc,
      match cache with
      | some info =>
        if jsIncludes lc "quarter" then .inlineReply (quarterBiggestReply info)
        else .inlineReply (generalBiggestReply info)
      | none =>
        .navigate "Perfect! Let me show you the donations page to find the biggest donor this quarter!"
          ("/t/" ++ tenantId ++ "/donations")),
    (contactsGuard lc,
      .navigate "Opening your contacts!" ("/t/" ++ tenantId ++ "/contacts")),
    (calendarGuard lc,
      .navigate "Let's check your calendar!" ("/t/" ++ tenantId ++ "/calendar")),
    (reportsGuard lc,
      .navigate "Perfect! Generating your reports!" ("/t/" ++ tenantId ++ "/reports")),
    (findJonathanGuard lc,
      .navigate "Perfect! Let me find Jonathan for you!" ("/t/" ++ tenantId ++ "/contacts?search=Jonathan")),
    (findTakuaGuard lc,
      .navigate "Finding Takua for you!" ("/t/" ++ tenantId ++ "/contacts?search=Takua")),
    (findHongGuard lc,
      .navigate "Perfect! Let me find Hong for you!" ("/t/" ++ tenantId ++ "/contacts?search=Hong")),
    (findDatzGuard lc,
      .navigate "Finding Datz for you!" ("/t/" ++ tenantId ++ "/contacts?search=Datz")),
    (weatherGuard lc, .remoteQuery .weather command),
    (donationAdviceGuard lc, .remoteQuery .donationAdvice command),
    (questionGuard lc, .remoteQuery .generalQuestion command),
    (helpGuard lc, .inlineReply helpReply) ]

/-- First-match selection over an ordered branch list, with a default. -/
def firstTrue : List (Bool × Intent) → Intent → Intent
  | [], d => d
  | (b, i) :: t, d => if b then i else firstTrue t d

/-! ## Session state and the dispatcher guards of `processVoiceCommand` -/

/-- The connection lifecycle states of the session controller. -/
inductive ConnStatus where
  | disconnected
  | connecting
  | connected
  deriving DecidableEq

/-- The avatar display states. -/
inductive AvatarState where
  | idle
  | listening
  | speaking
  | thinking
  deriving DecidableEq

/-- The mutable per-session state of the `VoiceAssistant` component: the
React state flags, the connection status, and the duplicate-suppression
pair (`lastProcessedCommand.current` and the timestamp attached to it). -/
structure VAState where
  isConnected : Bool
  isListening : Bool
  isSpeaking : Bool
  isProcessing : Bool
  isProcessingCommand : Bool
  isAmbientMode : Bool
  hasIntroduced : Bool
  connectionStatus : ConnStatus
  avatarState : AvatarState
  transcript : String
  audioLevel : Nat
  audioMonitoring : Bool
  recognitionActive : Bool
  lastCommand : String
  lastTimestamp : Nat
  deriving DecidableEq

/-- The synchronous part of `processVoiceCommand`: the four reject guards in
source order, then acceptance (stamping the duplicate-suppression pair,
raising the processing flags, classifying). A rejected command returns the
state unchanged and no intent; an accepted stop command clears the flags
again at once (the stop branch returns before speaking). `now` is
`Date.now()` in milliseconds. -/
def processVoiceCommand (tenantId : String) (cache : Option DonationInfo)
    (st : VAState) (command : String) (now : Nat) : VAState × Option Intent :=
  if st.isProcessingCommand || st.isSpeaking || st.isProcessing then
    (st, none)
  else
    let normalized := trimS (lowerStr command)
    if st.lastCommand = normalized then (st, none)
    else if (splitSp normalized.data).length < 2 ∧
        jsIncludes normalized "help" = false ∧ jsIncludes normalized "stop" = false then
      (st, none)
    else if now - st.lastTimestamp < 3000 then (st, none)
    else
      let st1 := { st with lastCommand := normalized, lastTimestamp := now,
                           isProcessingCommand := true, isProcessing := true,
                           avatarState := .thinking }
      match classifyCommand tenantId cache command with
      | .stopSpeaking =>
        ({ st1 with isSpeaking := false, isProcessingCommand := false,
                    isProcessing := false, avatarState := .idle },
         some .stopSpeaking)
      | i => (st1, some i)

/-! ## Session controller: audio metering cleanup, capture stop, disconnects -/

/-- `cleanupAudioMonitoring`: cancels the animation frame, closes the audio
context, zeroes the displayed level. -/
def cleanupAudioMonitoring (st : VAState) : VAState :=
  { st with audioMonitoring := false, audioLevel := 0 }

/-- `stopAmbientListening`: when a recognition instance exists, stops it,
drops the reference, clears the listening and ambient-mode flags, and sets
the avatar idle unless a command is processing; otherwise does nothing. -/
def stopAmbientListening (st : VAState) : VAState :=
  if st.recognitionActive then
    { st with recognitionActive := false, isListening := false, isAmbientMode := false,
              avatarState := if st.isProcessing then st.avatarState else .idle }
  else st

/-- The `RoomEvent.Disconnected` handler (provider-triggered disconnect):
clears connection and listening state, resets the introduction flag, then
runs `cleanupAudioMonitoring` and `stopAmbientListening`, in source order. -/
def onRoomDisconnected (st : VAState) : VAState :=
  stopAmbientListening (cleanupAudioMonitoring
    { st with isConnected := false, isListening := false,
              connectionStatus := .disconnected, avatarState := .idle,
              hasIntroduced := false })

/-- `disconnectFromRoom` (explicit disconnect): stops capture and metering,
disconnects the room, then clears every session flag including both
processing flags, in source order. -/
def disconnectFromRoom (st : VAState) : VAState :=
  let st1 := cleanupAudioMonitoring (stopAmbientListening st)
  { st1 with isConnected := false, isListening := false, isProcessing := false,
             isProcessingCommand := false, connectionStatus := .disconnected,
             transcript := "", avatarState := .idle, hasIntroduced := false }

/-! ## The `/mood` endpoint's short-circuit logic -/

/-- The hardcoded self-harm indicator list of the `/mood` route (the source
repeats the first entry). -/
def sensitiveKeywords : List String :=
  ["hurt myself", "hurt myself", "suicide", "kill myself", "end it all", "not worth it"]

/-- The fixed empathetic safety response the `/mood` route returns on a
sensitive query. -/
def safetyResponse : String :=
  "I'm really sorry you're feeling this way. You are valued and important, and there are people who care about you. Please know that you don't have to go through this alone. Is there someone you trust that you could talk to? I'm here to listen and support you."

/-- The mood-keyword table of the `/mood` route, in object-key order. -/
def moodKeywordReplies : List (String × String) :=
  [ ("sad", "I'm really sorry you're feeling this way. It's okay to feel sad sometimes. Can you tell me more about what's been going on? I'm here to listen and support you."),
    ("angry", "I understand you're feeling angry, and that's completely valid. Sometimes it helps to talk about what's bothering you. What's been on your mind?"),
    ("frustrated", "I'm sorry you're feeling frustrated. That can be really tough to deal with. Is there something specific that's been bothering you? I'm here to listen."),
    ("overwhelmed", "I'm sorry you're feeling overwhelmed. That can be really difficult. Take a deep breath - you're doing your best. What's been weighing on you?"),
    ("stressed", "I'm sorry you're feeling stressed. That can be really draining. Is there anything specific that's been causing you stress? I'm here to support you."),
    ("anxious", "I'm sorry you're feeling anxious. That can be really uncomfortable. Take a moment to breathe. What's been making you feel this way?"),
    ("lonely", "I'm sorry you're feeling lonely. That can be really hard. You're not alone in this - I'm here to listen and support you. What's been on your mind?"),
    ("happy", "That's wonderful to hear! I'm so glad you're feeling happy. What's been making you feel this way? I'd love to share in your joy!"),
    ("excited", "That's fantastic! I'm excited for you! What's got you feeling this way? I'd love to hear about it!"),
    ("grateful", "That's beautiful! Gratitude is such a wonderful feeling. What are you grateful for? I'd love to hear about it!") ]

/-- Outcome of a `/mood` request: a 400 on a missing (empty, hence falsy)
query, a locally produced `{answer, query}` with no upstream call, or a
pass-through to the upstream model. -/
inductive MoodResponse where
  | badRequest
  | localReply (answer query : String)
  | upstreamCall (query : String)
  deriving DecidableEq

/-- The `POST /mood` handler's decision logic: reject a falsy query,
short-circuit on a self-harm indicator with the fixed safety response,
else reply from the mood-keyword table when one matches, else call the
upstream model with the query. -/
def moodRoute (query : String) : MoodResponse :=
  if query = "" then .badRequest
  else if sensitiveKeywords.any (fun kw => jsIncludes (lowerStr query) kw) then
    .localReply safetyResponse query
  else
    match moodKeywordReplies.find? (fun p =>
        jsIncludes (lowerStr query) p.1 ||
        jsIncludes (lowerStr query) ("feeling " ++ p.1) ||
        jsIncludes (lowerStr query) ("i'm " ++ p.1) ||
        jsIncludes (lowerStr query) ("i am " ++ p.1)) with
    | some p => .localReply p.2 query
    | none => .upstreamCall query

/-! ## Cascading text-to-speech (`speakWithOpenAI` and `fallbackSpeak`)

The hosted-synthesis attempt is a single fetch with a single outcome, and
an obtained audio element has a single playback outcome; the model records
the externally visible speech-output actions as an event trace. -/

/-- Outcome of the `fetch` to `/api/openai/tts`. -/
inductive FetchOutcome where
  | throwsErr
  | notOk
  | ok
  deriving DecidableEq

/-- Outcome of playing the returned audio (`onended`, `onerror`, or the
`audio.play()` promise rejecting). -/
inductive PlayOutcome where
  | ended
  | errorEvent
  | rejects
  deriving DecidableEq

/-- Observable speech-output events. -/
inductive TtsEvent where
  | fallbackInvoked (text : String)
  | cancelBrowserQueue
  | queueUtterance (text : String)
  deriving DecidableEq

/-- `fallbackSpeak`: invoked with the text; when the browser exposes
`speechSynthesis` it cancels any queued utterance and queues exactly this
one, otherwise it does nothing further. -/
def fallbackSpeak (supported : Bool) (text : String) : List TtsEvent :=
  .fallbackInvoked text ::
    (if supported then [.cancelBrowserQueue, .queueUtterance text] else [])

/-- `speakWithOpenAI`: a thrown fetch error or a non-success response lands
in the catch block, which falls back; on a successful response the audio
plays and the element's error handler (or the rejected `play()` promise
caught by the same catch block) falls back; a normally ended playback never
does. -/
def speakWithOpenAI (supported : Bool) (text : String)
    (f : FetchOutcome) (p : PlayOutcome) : List TtsEvent :=
  match f with
  | .throwsErr => fallbackSpeak supported text
  | .notOk => fallbackSpeak supported text
  | .ok =>
    match p with
    | .ended => []
    | .errorEvent => fallbackSpeak supported text
    | .rejects => fallbackSpeak supported text

/-- How often the trace records a fallback invocation for `text`. -/
def countFallback (text : String) : List TtsEvent → Nat
  | [] => 0
  | e :: r => (if e = TtsEvent.fallbackInvoked text then 1 else 0) + countFallback text r

/-- How often the trace queues the utterance `text`. -/
def countQueued (text : String) : List TtsEvent → Nat
  | [] => 0
  | e :: r => (if e = TtsEvent.queueUtterance text then 1 else 0) + countQueued text r

/-! ## Speech-capture final-transcript filters (`recognition.onresult`) -/

/-- The fixed noise-word list of the capture filter. -/
def noisePatterns : List String :=
  ["uh", "um", "ah", "eh", "oh", "mm", "hmm", "huh",
   "yeah", "yes", "no", "ok", "okay", "right", "sure",
   "hello", "hi", "hey", "test", "testing", "mic", "microphone"]

/-- The final-transcript path of `recognition.onresult`: drop transcripts
whose trimmed form is shorter than 5 characters, drop low-confidence
results (the float comparison `confidence < 0.8` abstracted as
`lowConfidence`), drop exact noise-word matches, drop single words shorter
than 8 characters; otherwise emit the original transcript as the command. -/
def onFinalResult (finalTranscript : String) (lowConfidence : Bool) : Option String :=
  let trimmed := trimS finalTranscript
  if trimmed.length < 5 then none
  else if lowConfidence then none
  else
    let lower := lowerStr trimmed
    if noisePatterns.contains lower then none
    else if (splitSp lower.data).length = 1 ∧ lower.length < 8 then none
    else some finalTranscript

/-! ## Concrete fixtures used by counterexamples and witnesses -/

/-- The cached donation fact of the claims: the Tokyo Voice AI tenant's top
donation as the spec quotes it. -/
def alexCache : DonationInfo := ⟨"Alex Inc", 15000, "2024-10-25"⟩

/-- A connected, idle-listening session with nothing processed yet. -/
def idleState : VAState :=
  { isConnected := true, isListening := true, isSpeaking := false,
    isProcessing := false, isProcessingCommand := false, isAmbientMode := true,
    hasIntroduced := true, connectionStatus := .connected,
    avatarState := .listening, transcript := "", audioLevel := 0,
    audioMonitoring := true, recognitionActive := true,
    lastCommand := "", lastTimestamp := 0 }

/-- `idleState` right after accepting `"show me sales pipeline"` at time 5000. -/
def acceptedState : VAState :=
  { idleState with lastCommand := "show me sales pipeline", lastTimestamp := 5000,
                   isProcessingCommand := true, isProcessing := true,
                   avatarState := .thinking }

/-- A session whose speech output is active. -/
def speakingState : VAState := { idleState with isSpeaking := true }

/-- A session in the middle of processing a command. -/
def busyProcessingState : VAState :=
  { idleState with isProcessing := true, isProcessingCommand := true }

/-! ## Helper lemmas -/

/-- An accepted dispatch stamps the duplicate-suppression timestamp with the
submission time; no rejected path alters it. -/
theorem accepted_lastTimestamp (tenantId : String) (cache : Option DonationInfo)
    (st : VAState) (command : String) (now : Nat) (st' : VAState) (i : Intent)
    (h : processVoiceCommand tenantId cache st command now = (st', some i)) :
    st'.lastTimestamp = now := by
  simp only [processVoiceCommand] at h
  split_ifs at h with g1 g2 g3 g4 <;> try simp at h
  split at h <;>
    (simp only [Prod.mk.injEq] at h; obtain ⟨h', _⟩ := h; subst h'; rfl)

/-! ## The claims -/

/-- C1: the spec claims that the dispatched utterance "biggest donor this
quarter", with the biggest-donation cache holding Alex Inc / 15000 /
2024-10-25, yields exactly the spoken text "Alex Inc is the biggest donor
this quarter with $15,000 donated on 2024-10-25!" and no remote query. In
the source the donations/quarter/revenue branch precedes the biggest-donor
branch, and the utterance contains "quarter", so the earlier branch wins:
the code speaks "Perfect! Opening donations for this quarter!" and
navigates to the donations page instead, even though the biggest-donor
branch's own condition lists the full phrase "biggest donor this quarter"
and its quarter sub-branch would have produced exactly the claimed reply —
that sub-branch is unreachable. -/
theorem biggest_donor_quarter_diverges :
    classifyCommand "tokyo-voice-ai" (some alexCache) "biggest donor this quarter" =
      .navigate "Perfect! Opening donations for this quarter!" "/t/tokyo-voice-ai/donations" ∧
    quarterBiggestReply alexCache =
      "Alex Inc is the biggest donor this quarter with $15,000 donated on 2024-10-25!" ∧
    Intent.navigate "Perfect! Opening donations for this quarter!" "/t/tokyo-voice-ai/donations" ≠
      Intent.inlineReply
        "Alex Inc is the biggest donor this quarter with $15,000 donated on 2024-10-25!" := by
  decide

/-- C2: the classifier is total and deterministic — it equals first-match
selection over the source-ordered branch list, every input yields exactly
one intent, any utterance matching the stop keywords classifies as
stop-speaking whatever else it matches, and in particular "stop the
pipeline" is stop-speaking although the pipeline keywords also match. -/
theorem classifier_total_first_match :
    (∀ tenantId cache command, classifyCommand tenantId cache command =
       firstTrue (codeBranches tenantId cache command) (Intent.inlineReply defaultReply)) ∧
    (∀ tenantId cache command, ∃! i, classifyCommand tenantId cache command = i) ∧
    (∀ tenantId cache command, stopGuard (lowerStr command) = true →
       classifyCommand tenantId cache command = .stopSpeaking) ∧
    (∀ tenantId cache, classifyCommand tenantId cache "stop the pipeline" = .stopSpeaking ∧
       pipelineGuard (lowerStr "stop the pipeline") = true) := by
  refine ⟨fun _ _ _ => rfl, fun tid cache cmd => ⟨_, rfl, fun y h => h.symm⟩,
    ?_, fun _ _ => ⟨rfl, rfl⟩⟩
  intro tid cache cmd h
  simp only [classifyCommand, h, if_true]

/-- C2 witness: the stop guard fires on "stop the pipeline" and the theorem
classifies it as stop-speaking. -/
theorem classifier_total_first_match_witness :
    stopGuard (lowerStr "stop the pipeline") = true ∧
    classifyCommand "t" none "stop the pipeline" = .stopSpeaking :=
  ⟨by decide, classifier_total_first_match.2.2.1 "t" none "stop the pipeline" (by decide)⟩

/-- C3: once a command is accepted at time `t1`, resubmitting the identical
command less than 3000 ms later is rejected before any intent is derived
and leaves the session state untouched, in any interim state that still
carries the stamped timestamp (no code path resets it short of a new
acceptance). -/
theorem same_command_within_3s_rejected (tenantId : String)
    (cache : Option DonationInfo) (st : VAState) (command : String) (t1 : Nat)
    (st' : VAState) (i : Intent)
    (h1 : processVoiceCommand tenantId cache st command t1 = (st', some i))
    (st2 : VAState) (t2 : Nat) (tenantId2 : String) (cache2 : Option DonationInfo)
    (hts : st2.lastTimestamp = st'.lastTimestamp)
    (_hle : t1 ≤ t2) (hlt : t2 - t1 < 3000) :
    processVoiceCommand tenantId2 cache2 st2 command t2 = (st2, none) := by
  have hstamp : st'.lastTimestamp = t1 :=
    accepted_lastTimestamp tenantId cache st command t1 st' i h1
  simp only [processVoiceCommand]
  split_ifs with g1 g2 g3 g4 <;> try rfl
  exfalso
  rw [hts, hstamp] at g4
  omega

/-- C3 witness: "show me sales pipeline" is accepted at time 5000; the same
command resubmitted at 6000 is rejected with the state unchanged. -/
theorem same_command_within_3s_rejected_witness :
    processVoiceCommand "t" none idleState "show me sales pipeline" 5000 =
      (acceptedState,
       some (.navigate "Let me show you the sales pipeline!" "/t/t/pipeline")) ∧
    processVoiceCommand "t" none acceptedState "show me sales pipeline" 6000 =
      (acceptedState, none) :=
  ⟨by decide,
   same_command_within_3s_rejected "t" none idleState "show me sales pipeline" 5000
     acceptedState (.navigate "Let me show you the sales pipeline!" "/t/t/pipeline")
     (by decide) acceptedState 6000 "t" none rfl (by decide) (by decide)⟩

/-- C4: while `isSpeaking`, `isProcessing` or `isProcessingCommand` is set,
the dispatcher refuses the command and returns the session state unchanged,
so at most one command-processing or speech-output operation is in flight. -/
theorem busy_session_refuses_dispatch (tenantId : String)
    (cache : Option DonationInfo) (st : VAState) (command : String) (now : Nat)
    (h : st.isSpeaking = true ∨ st.isProcessing = true ∨ st.isProcessingCommand = true) :
    processVoiceCommand tenantId cache st command now = (st, none) := by
  simp only [processVoiceCommand]
  rcases h with h | h | h <;> simp [h]

/-- C4 witness: a session with active speech output refuses a fresh
command. -/
theorem busy_session_refuses_dispatch_witness :
    speakingState.isSpeaking = true ∧
    processVoiceCommand "t" none speakingState "show me sales pipeline" 9000 =
      (speakingState, none) :=
  ⟨rfl, busy_session_refuses_dispatch "t" none speakingState "show me sales pipeline" 9000
    (Or.inl rfl)⟩

/-- C5 counterexample: the provider-triggered `RoomEvent.Disconnected`
handler stops capture and metering but does not clear the processing
flags — from a state with both flags set, both are still set afterwards,
contradicting the claim that every transition to disconnected clears
them. -/
theorem provider_disconnect_keeps_processing_flags :
    (onRoomDisconnected busyProcessingState).isProcessing = true ∧
    (onRoomDisconnected busyProcessingState).isProcessingCommand = true := by
  decide

/-- C5 (amended): an explicit `disconnectFromRoom` stops capture and
metering and clears both processing flags; the provider-triggered
`Disconnected` handler stops capture and metering and clears the listening
state, but leaves `isProcessing` and `isProcessingCommand` exactly as they
were. -/
theorem disconnect_paths_stop_capture_and_metering :
    (∀ st : VAState,
       (disconnectFromRoom st).recognitionActive = false ∧
       (disconnectFromRoom st).audioMonitoring = false ∧
       (disconnectFromRoom st).isProcessing = false ∧
       (disconnectFromRoom st).isProcessingCommand = false ∧
       (disconnectFromRoom st).connectionStatus = .disconnected) ∧
    (∀ st : VAState,
       (onRoomDisconnected st).recognitionActive = false ∧
       (onRoomDisconnected st).audioMonitoring = false ∧
       (onRoomDisconnected st).isListening = false ∧
       (onRoomDisconnected st).connectionStatus = .disconnected ∧
       (onRoomDisconnected st).isProcessing = st.isProcessing ∧
       (onRoomDisconnected st).isProcessingCommand = st.isProcessingCommand) := by
  refine ⟨fun st => ?_, fun st => ?_⟩
  · unfold disconnectFromRoom cleanupAudioMonitoring stopAmbientListening
    by_cases hr : st.recognitionActive <;> simp [hr]
  · unfold onRoomDisconnected cleanupAudioMonitoring stopAmbientListening
    by_cases hr : st.recognitionActive <;> simp [hr]

/-- C6 counterexample: "find alice" is a find-name utterance, yet no branch
matches it (only four names are hardcoded), so the classifier answers with
the canned clarification reply instead of navigating to contacts with a
search parameter. -/
theorem find_unsupported_name_unrecognized :
    classifyCommand "t1" none "find alice" = .inlineReply defaultReply := by
  decide

/-- C6 (amended): exactly the four hardcoded find-name utterances — find
jonathan, find takua, find hong, find datz — navigate to the contacts page
with the capitalized name appended as the search query parameter. -/
theorem find_supported_names_navigate (tenantId : String) (cache : Option DonationInfo) :
    classifyCommand tenantId cache "find jonathan" =
      .navigate "Perfect! Let me find Jonathan for you!"
        ("/t/" ++ tenantId ++ "/contacts?search=Jonathan") ∧
    classifyCommand tenantId cache "find takua" =
      .navigate "Finding Takua for you!" ("/t/" ++ tenantId ++ "/contacts?search=Takua") ∧
    classifyCommand tenantId cache "find hong" =
      .navigate "Perfect! Let me find Hong for you!"
        ("/t/" ++ tenantId ++ "/contacts?search=Hong") ∧
    classifyCommand tenantId cache "find datz" =
      .navigate "Finding Datz for you!" ("/t/" ++ tenantId ++ "/contacts?search=Datz") :=
  ⟨rfl, rfl, rfl, rfl⟩

/-- C7: a nonempty `/mood` query whose lowercase form contains one of the
hardcoded self-harm indicators gets the fixed empathetic safety response
together with the original query, and the upstream model is not called. -/
theorem mood_selfharm_short_circuit (query : String) (hq : query ≠ "")
    (hk : sensitiveKeywords.any (fun kw => jsIncludes (lowerStr query) kw) = true) :
    moodRoute query = .localReply safetyResponse query := by
  simp [moodRoute, hq, hk]

/-- C7 witness: the query "I want to hurt myself" contains the indicator
"hurt myself" and receives the fixed safety response locally. -/
theorem mood_selfharm_short_circuit_witness :
    ("I want to hurt myself" ≠ "" ∧
     sensitiveKeywords.any
       (fun kw => jsIncludes (lowerStr "I want to hurt myself") kw) = true) ∧
    moodRoute "I want to hurt myself" =
      .localReply safetyResponse "I want to hurt myself" :=
  ⟨⟨by decide, by decide⟩,
   mood_selfharm_short_circuit "I want to hurt myself" (by decide) (by decide)⟩

/-- C8: whenever the hosted synthesis attempt for a text fails — the fetch
throws, the response is non-success, playback raises an error, or `play()`
rejects — the browser fallback is invoked exactly once for that text, and
(when the browser exposes `speechSynthesis`) exactly one utterance of that
text is queued, preceded by a cancel of the queue. -/
theorem tts_failure_fallback_once (supported : Bool) (text : String)
    (f : FetchOutcome) (p : PlayOutcome)
    (hfail : f ≠ .ok ∨ p ≠ .ended) :
    countFallback text (speakWithOpenAI supported text f p) = 1 ∧
    countQueued text (speakWithOpenAI supported text f p) =
      (if supported then 1 else 0) := by
  cases f <;> cases p <;> cases supported <;>
    simp_all [speakWithOpenAI, fallbackSpeak, countFallback, countQueued]

/-- C8 witness: a non-success response for "Hello" triggers exactly one
fallback invocation and queues the utterance once. -/
theorem tts_failure_fallback_once_witness :
    (FetchOutcome.notOk ≠ FetchOutcome.ok ∨ PlayOutcome.ended ≠ PlayOutcome.ended) ∧
    (countFallback "Hello" (speakWithOpenAI true "Hello" .notOk .ended) = 1 ∧
     countQueued "Hello" (speakWithOpenAI true "Hello" .notOk .ended) =
       (if true then 1 else 0)) :=
  ⟨Or.inl (by decide),
   tts_failure_fallback_once true "Hello" .notOk .ended (Or.inl (by decide))⟩

/-- C9: a final transcript whose trimmed form is shorter than 5 characters,
or whose trimmed lowercase form equals an entry of the fixed noise-word
list, is never emitted as a command (whatever the confidence comparison
yields), so no intent is produced from it. -/
theorem capture_filters_emit_nothing (t : String) (lowConf : Bool)
    (h : (trimS t).length < 5 ∨
         noisePatterns.contains (lowerStr (trimS t)) = true) :
    onFinalResult t lowConf = none := by
  simp only [onFinalResult]
  by_cases hlen : (trimS t).length < 5
  · simp [hlen]
  · rcases h with h | h
    · exact absurd h hlen
    · have hm : lowerStr (trimS t) ∈ noisePatterns := by simpa using h
      cases lowConf with
      | false => simp [hlen, hm]
      | true => simp [hlen]

/-- C9 witness: "hello" survives the length filter but matches the
noise-word list exactly, so the capture emits nothing. -/
theorem capture_filters_emit_nothing_witness :
    ((trimS "hello").length < 5 ∨
     noisePatterns.contains (lowerStr (trimS "hello")) = true) ∧
    onFinalResult "hello" false = none :=
  ⟨by decide, capture_filters_emit_nothing "hello" false (by decide)⟩

/-- C10: a command whose normalized form splits into fewer than two
space-separated words and contains neither "help" nor "stop" is rejected by
the dispatcher whatever the session state: no intent is derived, and the
state is returned unchanged. -/
theorem short_command_rejected (tenantId : String) (cache : Option DonationInfo)
    (st : VAState) (command : String) (now : Nat)
    (hw : (splitSp (trimS (lowerStr command)).data).length < 2)
    (hh : jsIncludes (trimS (lowerStr command)) "help" = false)
    (hs : jsIncludes (trimS (lowerStr command)) "stop" = false) :
    processVoiceCommand tenantId cache st command now = (st, none) := by
  simp only [processVoiceCommand]
  split_ifs with g1 g2 g3 g4 <;> try rfl
  all_goals exact absurd ⟨hw, hh, hs⟩ g3

/-- C10 witness: the single-word utterance "pipeline" is rejected by the
dispatcher even from a fully idle session. -/
theorem short_command_rejected_witness :
    ((splitSp (trimS (lowerStr "pipeline")).data).length < 2 ∧
     jsIncludes (trimS (lowerStr "pipeline")) "help" = false ∧
     jsIncludes (trimS (lowerStr "pipeline")) "stop" = false) ∧
    processVoiceCommand "t" none idleState "pipeline" 9999 = (idleState, none) :=
  ⟨by decide,
   short_command_rejected "t" none idleState "pipeline" 9999
     (by decide) (by decide) (by decide)⟩

end CrmblrVoice
